import Mathlib

/-!
Verification development for the realtime messaging relay of the wsbfinder
application: the room-identity derivation, the socket.io presence registry
and relay dispatcher of `server.js`, and the client reconciliation state
machine and unread-boundary calculator of the chat page component.

Every definition is a shallow embedding of the corresponding JavaScript /
TypeScript function from the source, translated line by line: JS strings
become Lean `String`, `string | null | undefined` becomes `Option String`,
timestamps (`Date.now()`, parsed `created_at`) become `Nat`, and a handler
that can throw becomes an `Except`-valued function.
-/

namespace Wsbfinder

/-! ## Room Identity

The source (`createRoomId` in the chat page component):

    const createRoomId = (userId1, userId2) => {
      return [String(userId1), String(userId2)].sort().join("--");
    };

`Array.prototype.sort` with the default comparator orders the two strings by
the JS `<` relation on strings (lexicographic by code unit; identical to
lexicographic by character for the identifier alphabet in use), keeping the
original order when neither compares below the other (stable sort of two
elements).  We embed the JS string comparison as a lexicographic order on the
underlying character lists. -/

/-- Lexicographic strict order on character lists: the embedding of the JS
`<` comparison used by the default `sort` comparator on strings. -/
def lexLt : List Char → List Char → Bool
  | [], [] => false
  | [], _ :: _ => true
  | _ :: _, [] => false
  | a :: as, b :: bs => if a < b then true else if b < a then false else lexLt as bs

/-- JS string comparison `a < b`, lifted to Lean strings. -/
def jsLtStr (a b : String) : Bool := lexLt a.data b.data

/-- Embedding of `createRoomId`: sort the two identifiers and join with the
fixed delimiter `"--"`.  `[a, b].sort()` is `[a, b]` unless `b < a`, in which
case it is `[b, a]`; `join("--")` concatenates with the delimiter between. -/
def createRoomId (userId1 userId2 : String) : String :=
  if jsLtStr userId2 userId1 then userId2 ++ "--" ++ userId1
  else userId1 ++ "--" ++ userId2

lemma lexLt_asymm : ∀ a b : List Char, lexLt a b = true → lexLt b a = false := by
  intro a
  induction a with
  | nil => intro b h; cases b <;> simp_all [lexLt]
  | cons x xs ih =>
    intro b h
    cases b with
    | nil => simp [lexLt] at h
    | cons y ys =>
      simp only [lexLt] at h ⊢
      by_cases hxy : x < y
      · have : ¬ y < x := fun hyx => absurd hxy (asymm hyx)
        simp [hxy, this]
      · by_cases hyx : y < x
        · simp [hxy, hyx] at h
        · simp [hxy, hyx] at h ⊢
          exact ih ys h

lemma lexLt_total_eq : ∀ a b : List Char, lexLt a b = false → lexLt b a = false → a = b := by
  intro a
  induction a with
  | nil => intro b h1 _; cases b <;> simp_all [lexLt]
  | cons x xs ih =>
    intro b h1 h2
    cases b with
    | nil => simp [lexLt] at h2
    | cons y ys =>
      simp only [lexLt] at h1 h2
      by_cases hxy : x < y
      · simp [hxy] at h1
      · by_cases hyx : y < x
        · simp [hxy, hyx] at h2
        · simp [hxy, hyx] at h1 h2
          have hx : x = y := le_antisymm (not_lt.mp hyx) (not_lt.mp hxy)
          rw [hx, ih ys h1 h2]

lemma string_data_eq {a b : String} (h : a.data = b.data) : a = b := by
  cases a; cases b; exact congrArg String.mk h

/-- C4: For all user identifiers `a` and `b`,
`createRoomId a b = createRoomId b a` — the room identifier is commutative
in its two arguments. -/
theorem createRoomId_comm (a b : String) : createRoomId a b = createRoomId b a := by
  unfold createRoomId
  by_cases hba : jsLtStr b a = true
  · have hab : jsLtStr a b = false := lexLt_asymm _ _ hba
    simp [hba, hab]
  · have hba' : jsLtStr b a = false := by simpa using hba
    by_cases hab : jsLtStr a b = true
    · simp [hba', hab]
    · have hab' : jsLtStr a b = false := by simpa using hab
      have : a = b := string_data_eq (lexLt_total_eq _ _ hab' hba')
      simp [hba', hab', this]

/-! ## Injectivity of the room identifier

The spec's delimiter constraint: no character of the delimiter (`'-'`, the
only character of `"--"`) is legal inside a `UserIdentity`.  Under that
constraint the sorted join is uniquely splittable. -/

lemma append_delim_inj (d : Char) :
    ∀ (l1 m1 l2 m2 : List Char), d ∉ l1 → d ∉ m1 →
      l1 ++ d :: d :: l2 = m1 ++ d :: d :: m2 → l1 = m1 ∧ l2 = m2 := by
  intro l1
  induction l1 with
  | nil =>
    intro m1 l2 m2 _ hm1 he
    cases m1 with
    | nil => simpa using he
    | cons y ys =>
      simp only [List.nil_append, List.cons_append, List.cons.injEq] at he
      exact absurd (he.1 ▸ List.mem_cons_self y ys) (he.1 ▸ hm1)
  | cons x xs ih =>
    intro m1 l2 m2 hl1 hm1 he
    cases m1 with
    | nil =>
      simp only [List.nil_append, List.cons_append, List.cons.injEq] at he
      exact absurd (he.1 ▸ List.mem_cons_self x xs) (fun h => hl1 (he.1 ▸ h))
    | cons y ys =>
      simp only [List.cons_append, List.cons.injEq] at he
      have hx : x = y := he.1
      have hrec := ih ys l2 m2 (fun h => hl1 (List.mem_cons_of_mem x h))
        (fun h => hm1 (List.mem_cons_of_mem y h)) he.2
      exact ⟨by rw [hx, hrec.1], hrec.2⟩

lemma roomJoin_data (x y : String) :
    (x ++ "--" ++ y).data = x.data ++ '-' :: '-' :: y.data := by
  simp [String.data_append]

lemma roomJoin_inj {x y z w : String}
    (hx : ('-' : Char) ∉ x.data) (hz : ('-' : Char) ∉ z.data)
    (h : x ++ "--" ++ y = z ++ "--" ++ w) : x = z ∧ y = w := by
  have hdata : (x ++ "--" ++ y).data = (z ++ "--" ++ w).data := congrArg String.data h
  rw [roomJoin_data, roomJoin_data] at hdata
  have := append_delim_inj '-' x.data z.data y.data w.data hx hz hdata
  exact ⟨string_data_eq this.1, string_data_eq this.2⟩

/-- C5: under the delimiter constraint (the delimiter character `'-'` occurs
in none of the identifiers), `createRoomId` is injective over unordered
pairs: equal room identifiers force equal unordered pairs of users. -/
theorem createRoomId_inj_unordered (a b c d : String)
    (ha : ('-' : Char) ∉ a.data) (hb : ('-' : Char) ∉ b.data)
    (hc : ('-' : Char) ∉ c.data) (hd : ('-' : Char) ∉ d.data)
    (heq : createRoomId a b = createRoomId c d) :
    (a = c ∧ b = d) ∨ (a = d ∧ b = c) := by
  unfold createRoomId at heq
  by_cases h1 : jsLtStr b a <;> by_cases h2 : jsLtStr d c <;> simp [h1, h2] at heq
  · exact Or.inl ⟨(roomJoin_inj hb hd heq).2, (roomJoin_inj hb hd heq).1⟩
  · exact Or.inr ⟨(roomJoin_inj hb hc heq).2, (roomJoin_inj hb hc heq).1⟩
  · exact Or.inr ⟨(roomJoin_inj ha hd heq).1, (roomJoin_inj ha hd heq).2⟩
  · exact Or.inl ⟨(roomJoin_inj ha hc heq).1, (roomJoin_inj ha hc heq).2⟩

/-- Witness for C5 at concrete delimiter-free identifiers. -/
theorem createRoomId_inj_unordered_witness :
    (("alice" : String) = "alice" ∧ ("bob" : String) = "bob") ∨
    (("alice" : String) = "bob" ∧ ("bob" : String) = "alice") :=
  createRoomId_inj_unordered "alice" "bob" "alice" "bob"
    (by decide) (by decide) (by decide) (by decide) rfl

/-! ## Presence Registry and Relay Dispatcher (`server.js`)

The server keeps `const userSocketMap = new Map()` mapping `userId` to
`socket.id`.  A JS `Map` iterates in insertion order and `set` on an
existing key updates the value in place; we embed it as an association
list with exactly those semantics.  Room membership (socket.io's
`socket.join` / `socket.leave` and the room sets of the adapter) is a set
of `(socketId, room)` pairs; a room key reaching the adapter may be any
JS value, in particular `undefined` when a malformed `sendMessage` payload
lacked a `roomId`, so room keys are `Option String`. -/

/-- A JS `Map<string, string>`: association list in insertion order. -/
def PresenceMap := List (String × String)

/-- `Map.prototype.set`: update the value in place if the key is present
(keeping its position), else append at the end. -/
def mapSet (m : List (String × String)) (k v : String) : List (String × String) :=
  match m with
  | [] => [(k, v)]
  | (k1, v1) :: rest => if k1 = k then (k, v) :: rest else (k1, v1) :: mapSet rest k v

/-- `Map.prototype.get`: the value stored at the first matching key. -/
def mapGet (m : List (String × String)) (k : String) : Option String :=
  match m with
  | [] => none
  | (k1, v1) :: rest => if k1 = k then some v1 else mapGet rest k

/-- The `registerUser` handler:

    socket.on("registerUser", (userId) => {
      if (userId) { userSocketMap.set(userId, socket.id); }
    });

`userId` is whatever the client sent: `none` embeds `undefined`/`null`, and
a string is truthy exactly when it is non-empty. -/
def registerUserHandler (m : List (String × String)) (sid : String)
    (userId : Option String) : List (String × String) :=
  match userId with
  | none => m
  | some u => if u = "" then m else mapSet m u sid

/-- The `disconnect` handler: iterate the map in insertion order, delete the
first entry whose stored socket id equals the disconnecting socket, then
`break`. -/
def disconnectHandler (m : List (String × String)) (sid : String) :
    List (String × String) :=
  match m with
  | [] => []
  | (k1, v1) :: rest => if v1 = sid then rest else (k1, v1) :: disconnectHandler rest sid

/-- Room membership: the set of `(socketId, roomKey)` pairs held by the
socket.io adapter.  `socket.join` is idempotent (rooms are a `Set`). -/
def joinRoom (rooms : List (String × Option String)) (sid : String)
    (room : Option String) : List (String × Option String) :=
  if (sid, room) ∈ rooms then rooms else (sid, room) :: rooms

/-- `socket.leave`: drop the membership pair. -/
def leaveRoom (rooms : List (String × Option String)) (sid : String)
    (room : Option String) : List (String × Option String) :=
  rooms.filter (fun p => !(p.1 = sid ∧ p.2 = room : Bool))

/-- The sockets currently members of `room`. -/
def membersOf (rooms : List (String × Option String)) (room : Option String) :
    List String :=
  (rooms.filter (fun p => p.2 = room)).map (fun p => p.1)

/-- Semantics of `socket.to(room).emit(...)`: deliver to every member of the
room except the emitting socket itself. -/
def broadcastTo (rooms : List (String × Option String)) (sender : String)
    (room : Option String) : List String :=
  (membersOf rooms room).filter (fun c => !(c = sender : Bool))

/-! ### The `sendMessage` handler and malformed payloads

    socket.on("sendMessage", (data) => {
      const { text, roomId, senderId } = data;
      socket.to(roomId).emit("receiveMessage", { text, roomId, senderId });
    });

Destructuring `const { ... } = data` throws a `TypeError` when `data` is
`undefined` or `null`; on any other value the missing fields simply come out
`undefined`.  Nothing in `server.js` catches such a throw.  We embed the
inbound payload as a JS value and the handler as an `Except`, where
`Except.error` is the uncaught throw. -/

inductive JsVal where
  /-- the value `undefined` -/
  | undef : JsVal
  /-- the value `null` -/
  | jsnull : JsVal
  /-- an object; each expected field either present (with a string value) or absent -/
  | obj (text roomId senderId : Option String) : JsVal
deriving DecidableEq, Repr

/-- `const { text, roomId, senderId } = data`: throws on `undefined`/`null`,
otherwise reads the three properties (absent property reads as `undefined`). -/
def destructure3 : JsVal → Except Unit (Option String × Option String × Option String)
  | JsVal.undef => Except.error ()
  | JsVal.jsnull => Except.error ()
  | JsVal.obj t r s => Except.ok (t, r, s)

/-- One delivered `receiveMessage` event: recipient socket and payload fields. -/
structure Delivery where
  recipient : String
  text : Option String
  roomId : Option String
  senderId : Option String
deriving DecidableEq, Repr

/-- The full server state the handlers can touch. -/
structure ServerState where
  userSocketMap : List (String × String)
  rooms : List (String × Option String)
deriving DecidableEq, Repr

/-- The `sendMessage` handler on server state: destructure the payload (which
may throw), then broadcast to the room except the sender.  It mutates no
server state and never tears the connection down; its only effect is the
fan-out. -/
def sendMessageHandler (st : ServerState) (sid : String) (data : JsVal) :
    Except Unit (ServerState × List Delivery) :=
  match destructure3 data with
  | Except.error e => Except.error e
  | Except.ok (text, roomId, senderId) =>
      Except.ok (st, (broadcastTo st.rooms sid roomId).map
        (fun c => { recipient := c, text := text, roomId := roomId, senderId := senderId }))

/-! ### Presence registry theorems -/

lemma mapGet_mapSet_self (m : List (String × String)) (k v : String) :
    mapGet (mapSet m k v) k = some v := by
  induction m with
  | nil => simp [mapSet, mapGet]
  | cons p rest ih =>
    obtain ⟨k1, v1⟩ := p
    by_cases h : k1 = k <;> simp [mapSet, mapGet, h, ih]

lemma mapGet_disconnectHandler_keep (m : List (String × String)) (u v sid : String)
    (h : mapGet m u = some v) (hv : v ≠ sid) :
    mapGet (disconnectHandler m sid) u = some v := by
  induction m with
  | nil => simp [mapGet] at h
  | cons p rest ih =>
    obtain ⟨k1, v1⟩ := p
    simp only [mapGet] at h
    by_cases hk : k1 = u
    · simp only [hk, if_pos rfl] at h
      have hv1 : v1 = v := Option.some.inj h
      have : v1 ≠ sid := hv1 ▸ hv
      simp [disconnectHandler, this, mapGet, hk, hv1, hv]
    · simp only [if_neg hk] at h
      by_cases hs : v1 = sid
      · simpa [disconnectHandler, hs] using h
      · simp [disconnectHandler, hs, mapGet, hk]
        exact ih h

/-- C2: registering connection `c1` and then `c2` for user `u` leaves `u`
looked up at `c2`; a later disconnect of the superseded `c1` does not remove
or change that entry; and in general a disconnect changes a user's looked-up
entry only when the stored handle equals the disconnecting connection. -/
theorem presence_register_disconnect (m : List (String × String)) (u c1 c2 : String)
    (hu : u ≠ "") (hne : c1 ≠ c2) :
    mapGet (registerUserHandler (registerUserHandler m c1 (some u)) c2 (some u)) u
      = some c2 ∧
    mapGet (disconnectHandler
      (registerUserHandler (registerUserHandler m c1 (some u)) c2 (some u)) c1) u
      = some c2 ∧
    (∀ (m2 : List (String × String)) (v sid : String),
      mapGet m2 u = some v → v ≠ sid →
      mapGet (disconnectHandler m2 sid) u = some v) := by
  have hreg : registerUserHandler (registerUserHandler m c1 (some u)) c2 (some u)
      = mapSet (mapSet m u c1) u c2 := by
    simp [registerUserHandler, hu]
  refine ⟨?_, ?_, ?_⟩
  · rw [hreg]; exact mapGet_mapSet_self _ u c2
  · rw [hreg]
    exact mapGet_disconnectHandler_keep _ u c2 c1 (mapGet_mapSet_self _ u c2)
      (fun h => hne h.symm)
  · intro m2 v sid h hv
    exact mapGet_disconnectHandler_keep m2 u v sid h hv

/-- Witness for C2 at a concrete presence history. -/
theorem presence_register_disconnect_witness :
    mapGet (disconnectHandler
      (registerUserHandler (registerUserHandler [] "s1" (some "alice")) "s2" (some "alice"))
      "s1") "alice" = some "s2" :=
  (presence_register_disconnect [] "alice" "s1" "s2" (by decide) (by decide)).2.1

/-! ### Relay dispatcher theorems -/

lemma mem_membersOf (rooms : List (String × Option String)) (room : Option String)
    (c : String) : c ∈ membersOf rooms room ↔ (c, room) ∈ rooms := by
  simp only [membersOf, List.mem_map, List.mem_filter, decide_eq_true_eq]
  constructor
  · rintro ⟨⟨a, b⟩, ⟨hmem, hb⟩, rfl⟩
    exact hb ▸ hmem
  · intro h
    exact ⟨(c, room), ⟨h, rfl⟩, rfl⟩

/-- C3: the `sendMessage` handler delivers the relayed payload to exactly the
current members of the room other than the sender, and never to the sender's
own connection. -/
theorem dispatch_members_except_sender (st : ServerState) (sid : String)
    (t r s : Option String) (c : String) :
    ∃ ds, sendMessageHandler st sid (JsVal.obj t r s) = Except.ok (st, ds) ∧
      sid ∉ ds.map Delivery.recipient ∧
      (c ∈ ds.map Delivery.recipient ↔ ((c, r) ∈ st.rooms ∧ c ≠ sid)) := by
  refine ⟨_, rfl, ?_, ?_⟩
  · intro hmem
    simp only [sendMessageHandler, destructure3, broadcastTo, List.map_map,
      Function.comp, List.mem_map, List.mem_filter] at hmem
    obtain ⟨x, ⟨_, hx⟩, hrec⟩ := hmem
    simp at hx hrec
    exact hx hrec
  · simp only [sendMessageHandler, destructure3, broadcastTo, List.map_map,
      Function.comp, List.mem_map, List.mem_filter]
    constructor
    · rintro ⟨x, ⟨hmem, hne⟩, rfl⟩
      simp at hne
      exact ⟨(mem_membersOf _ _ _).mp hmem, hne⟩
    · rintro ⟨hmem, hne⟩
      refine ⟨c, ⟨(mem_membersOf _ _ _).mpr hmem, ?_⟩, rfl⟩
      simpa using hne

/-! ### Malformed payload behaviour -/

/-- Counterexample for C9: a `sendMessage` event whose payload is `undefined`
(not an object) makes the handler throw at the destructuring — it is not
gracefully discarded, and nothing in the relay code catches the throw. -/
theorem sendMessage_undef_payload_throws :
    sendMessageHandler { userSocketMap := [("alice", "s1")], rooms := [("s2", some "r")] }
      "s1" JsVal.undef = Except.error () := rfl

/-- C9 (amended): a malformed payload that is still an object — any fields
missing — is handled without throwing and without any change to the server
state (presence and membership untouched, connection kept); but a payload
that is `undefined` or `null` makes the `sendMessage` handler throw at the
destructuring, and that throw is not caught anywhere in the relay code. -/
theorem sendMessage_malformed_behavior (st : ServerState) (sid : String) :
    (∀ t r s, ∃ ds, sendMessageHandler st sid (JsVal.obj t r s) = Except.ok (st, ds)) ∧
    sendMessageHandler st sid JsVal.undef = Except.error () ∧
    sendMessageHandler st sid JsVal.jsnull = Except.error () := by
  refine ⟨fun t r s => ⟨_, rfl⟩, rfl, rfl⟩

/-- C10: a `registerUser` event with an absent (`undefined`/`null`) or empty
(falsy) user identifier leaves the presence map completely unchanged. -/
theorem registerUser_falsy_noop (m : List (String × String)) (sid : String) :
    registerUserHandler m sid none = m ∧ registerUserHandler m sid (some "") = m := by
  constructor <;> simp [registerUserHandler]

/-! ## Client Reconciliation State Machine (chat page component)

The client keeps `chatHistory : ChatMessage[]`.  The `ChatMessage` interface:

    interface ChatMessage {
      id: string; text: string; sender: "me" | "other";
      roomId: string; timestamp: number; senderId: string; created_at?: string;
    }

`timestamp` and parsed `created_at` values are millisecond counts, embedded
as `Nat`; the optional `created_at` becomes `Option Nat` (present exactly
for messages that carry a durable-store timestamp). -/

inductive Sender where
  | me : Sender
  | other : Sender
deriving DecidableEq, Repr

structure ChatMessage where
  id : String
  text : String
  sender : Sender
  roomId : String
  timestamp : Nat
  senderId : String
  created_at : Option Nat
deriving DecidableEq, Repr

/-- The inbound relay payload `{ text, roomId, senderId }`. -/
structure RelayMsg where
  text : String
  roomId : String
  senderId : String
deriving DecidableEq, Repr

/-- Embedding of `receiveMessageHandler`:

    const receiveMessageHandler = (msg) => {
      const userId = currentUserRef.current?.id;
      const activeRoomId = currentRoomIdRef.current;
      if (msg.senderId === userId) { return; }
      if (msg.roomId === activeRoomId) {
        const newMessageId = `${msg.senderId}-${Date.now()}`;
        setChatHistory((prev) => [...prev, { id: newMessageId, text: msg.text,
          sender: "other", roomId: msg.roomId, timestamp: Date.now(),
          senderId: msg.senderId }]);
      }
    };

`userId` and `activeRoomId` are `string | undefined` / `string | null`,
embedded as `Option String`; JS strict equality of a string against
`undefined`/`null` is false, so each comparison holds exactly when the
option is `some` of the compared string.  `Date.now()` is the parameter
`now`. -/
def receiveMessageHandler (userId activeRoomId : Option String) (msg : RelayMsg)
    (now : Nat) (prev : List ChatMessage) : List ChatMessage :=
  if userId = some msg.senderId then prev
  else if activeRoomId = some msg.roomId then
    prev ++ [{ id := msg.senderId ++ "-" ++ toString now, text := msg.text,
               sender := Sender.other, roomId := msg.roomId, timestamp := now,
               senderId := msg.senderId, created_at := none }]
  else prev

/-! ## Unread-Boundary Calculator

    const firstUnreadIndex =
      lastViewedTime > 0
        ? filteredChatHistory.findIndex((msg) => {
            const isMe = msg.sender === "me";
            const messageTime = msg.created_at
              ? new Date(msg.created_at).getTime() : msg.timestamp;
            const isValidTime = typeof messageTime === "number" && !isNaN(messageTime);
            return isValidTime && messageTime > lastViewedTime && !isMe;
          })
        : -1;

`Array.prototype.findIndex` returns the index of the first hit or `-1`.
Times are `Nat`, so the `isValidTime` (non-`NaN`) guard always holds in the
embedding. -/

/-- Index of the first element satisfying `p`, if any. -/
def findIdxOpt (p : α → Bool) : List α → Option Nat
  | [] => none
  | x :: xs => if p x then some 0 else (findIdxOpt p xs).map (fun n => n + 1)

/-- JS `findIndex`: first index satisfying `p`, or `-1`. -/
def jsFindIndex (p : α → Bool) (l : List α) : Int :=
  match findIdxOpt p l with
  | none => -1
  | some n => (n : Int)

/-- The effective display time of a message: the durable `created_at` when
present, else the client-side `timestamp` (the `messageTime` of the source). -/
def messageTime (m : ChatMessage) : Nat :=
  match m.created_at with
  | some t => t
  | none => m.timestamp

/-- Embedding of the `firstUnreadIndex` computation. -/
def firstUnreadIndex (lastViewedTime : Nat) (history : List ChatMessage) : Int :=
  if lastViewedTime > 0 then
    jsFindIndex (fun m =>
      decide (messageTime m > lastViewedTime) && !(m.sender = Sender.me : Bool)) history
  else -1

/-! ## Outbound send (`handleSend`)

    const handleSend = async (e) => {
      e.preventDefault();
      if (supabase && socket && isSocketConnected && message.trim() &&
          currentRoomId && selectedChatId && currentUserId) {
        const tempId = `${currentUserId}-${Date.now()}`;
        const messageText = message;
        setMessage("");
        setChatHistory((prev) => [...prev, newMessage]);    // optimistic append
        try {
          const { data: insertedMessage, error } = await supabase...insert(...)
          if (error) {
            setChatHistory((prev) => prev.filter((msg) => msg.id !== tempId));
            setMessage(messageText);
            return;                                          // no emit
          }
          if (insertedMessage) {
            setChatHistory((prev) => prev.map((msg) => msg.id === tempId
              ? { ...msg, id: insertedMessage.id,
                  timestamp: new Date(insertedMessage.created_at).getTime(),
                  created_at: insertedMessage.created_at } : msg));
          }
          socket.emit("sendMessage", { text: messageText, roomId: currentRoomId,
                                       senderId: currentUserId });
        } catch (dbError) {
          setChatHistory((prev) => prev.filter((msg) => msg.id !== tempId));
          setMessage(messageText);
        }
      }
    };

The durable-store round trip is the environment: its outcome is a parameter.
`insert(...).select(...).single()` resolves to `{ data, error }` (either the
error is set, or `data` is the inserted row, possibly `null`), or the await
itself throws into the `catch` block. -/

/-- Outcome of the durable persistence write. -/
inductive PersistResult where
  /-- resolved with `error` set -/
  | perr : PersistResult
  /-- the awaited operation threw (handled by the `catch` block) -/
  | pthrown : PersistResult
  /-- resolved successfully; `data` is `some (id, createdAtMs)` or `null` -/
  | pok (data : Option (String × Nat)) : PersistResult
deriving DecidableEq, Repr

/-- The client state `handleSend` reads and writes: the displayed sequence
and the composed text of the input field. -/
structure ClientState where
  chatHistory : List ChatMessage
  message : String
deriving DecidableEq, Repr

/-- The confirmation pass of `handleSend` step 2: replace the entry carrying
the temporary id with the store-assigned id and timestamp, in place. -/
def confirmMessage (tempId newId : String) (createdAt : Nat)
    (l : List ChatMessage) : List ChatMessage :=
  l.map (fun m =>
    if m.id = tempId then
      { m with id := newId, timestamp := createdAt, created_at := some createdAt }
    else m)

/-- Drop leading whitespace characters from a character list. -/
def dropLeadingWs : List Char → List Char
  | [] => []
  | c :: rest => if c.isWhitespace then dropLeadingWs rest else c :: rest

/-- JS `String.prototype.trim`: strip leading and trailing whitespace. -/
def jsTrim (s : String) : String :=
  String.mk ((dropLeadingWs ((dropLeadingWs s.data).reverse)).reverse)

/-- JS truthiness of a `string | null | undefined` value. -/
def jsTruthyStr (o : Option String) : Bool :=
  match o with
  | none => false
  | some s => !(s = "" : Bool)

/-- Embedding of `handleSend`.  Returns the resulting client state and the
list of `sendMessage` payloads emitted to the relay. -/
def handleSend (st : ClientState) (supabaseOk socketOk connected : Bool)
    (currentRoomId selectedChatId currentUserId : Option String)
    (now : Nat) (res : PersistResult) : ClientState × List RelayMsg :=
  if supabaseOk && socketOk && connected && !(jsTrim st.message = "" : Bool)
      && jsTruthyStr currentRoomId && jsTruthyStr selectedChatId
      && jsTruthyStr currentUserId then
    let uid := currentUserId.getD ""
    let rid := currentRoomId.getD ""
    let tempId := uid ++ "-" ++ toString now
    let messageText := st.message
    let hist1 := st.chatHistory ++
      [{ id := tempId, text := messageText, sender := Sender.me, roomId := rid,
         timestamp := now, senderId := uid, created_at := none }]
    match res with
    | PersistResult.perr =>
        ({ chatHistory := hist1.filter (fun m => !(m.id = tempId : Bool)),
           message := messageText }, [])
    | PersistResult.pthrown =>
        ({ chatHistory := hist1.filter (fun m => !(m.id = tempId : Bool)),
           message := messageText }, [])
    | PersistResult.pok data =>
        let hist2 :=
          match data with
          | some (newId, createdAt) => confirmMessage tempId newId createdAt hist1
          | none => hist1
        ({ chatHistory := hist2, message := "" },
         [{ text := messageText, roomId := rid, senderId := uid }])
  else (st, [])

/-! ### Live relay reconciliation (C6) -/

/-- C6: a live relay event from the peer for the active room appends exactly
one new entry at the end of the local sequence — the prefix is untouched, so
nothing is duplicated, removed or reordered; a relay event whose sender is
the client itself leaves any local sequence unchanged, as does one whose
room is not the active room. -/
theorem receiveMessage_appends_peer_message (uid rid : String) (msg : RelayMsg)
    (now : Nat) (prev : List ChatMessage)
    (hsender : msg.senderId ≠ uid) (hroom : msg.roomId = rid) :
    receiveMessageHandler (some uid) (some rid) msg now prev
      = prev ++ [{ id := msg.senderId ++ "-" ++ toString now, text := msg.text,
                   sender := Sender.other, roomId := msg.roomId, timestamp := now,
                   senderId := msg.senderId, created_at := none }] ∧
    (∀ (userId activeRoomId : Option String) (prev2 : List ChatMessage),
      userId = some msg.senderId →
      receiveMessageHandler userId activeRoomId msg now prev2 = prev2) ∧
    (∀ (activeRoomId : Option String) (prev2 : List ChatMessage),
      activeRoomId ≠ some msg.roomId →
      receiveMessageHandler (some uid) activeRoomId msg now prev2 = prev2) := by
  refine ⟨?_, ?_, ?_⟩
  · have h1 : (some uid : Option String) ≠ some msg.senderId := by
      intro h
      exact hsender (Option.some.inj h).symm
    simp [receiveMessageHandler, h1, hroom]
  · intro userId activeRoomId prev2 h
    simp [receiveMessageHandler, h]
  · intro activeRoomId prev2 h
    by_cases h1 : (some uid : Option String) = some msg.senderId
    · simp [receiveMessageHandler, h1]
    · simp [receiveMessageHandler, h1, h]

/-- Witness for C6: a concrete relay event from the peer appended to a
one-message history. -/
theorem receiveMessage_appends_peer_message_witness :
    receiveMessageHandler (some "alice") (some "r1")
      { text := "yo", roomId := "r1", senderId := "bob" } 9
      [{ id := "m1", text := "hi", sender := Sender.me, roomId := "r1",
         timestamp := 1, senderId := "alice", created_at := some 1 }]
      = [{ id := "m1", text := "hi", sender := Sender.me, roomId := "r1",
           timestamp := 1, senderId := "alice", created_at := some 1 },
         { id := "bob-9", text := "yo", sender := Sender.other, roomId := "r1",
           timestamp := 9, senderId := "bob", created_at := none }] :=
  (receiveMessage_appends_peer_message "alice" "r1"
    { text := "yo", roomId := "r1", senderId := "bob" } 9
    [{ id := "m1", text := "hi", sender := Sender.me, roomId := "r1",
       timestamp := 1, senderId := "alice", created_at := some 1 }]
    (by decide) rfl).1

/-! ### In-place confirmation (C8) -/

lemma map_eq_self_of_mem {α : Type} (f : α → α) (l : List α)
    (h : ∀ x ∈ l, f x = x) : l.map f = l := by
  induction l with
  | nil => rfl
  | cons x xs ih =>
    rw [List.map_cons, h x (List.mem_cons_self x xs),
      ih (fun y hy => h y (List.mem_cons_of_mem x hy))]

/-- C8: confirming the unique entry carrying the temporary id rewrites only
that entry's id and timestamp, in place — the sequence keeps its length, the
confirmed message keeps its position, and every other entry is unchanged. -/
theorem confirmMessage_inplace (l1 l2 : List ChatMessage) (m : ChatMessage)
    (tempId newId : String) (createdAt : Nat)
    (hm : m.id = tempId)
    (h1 : ∀ x ∈ l1, x.id ≠ tempId) (h2 : ∀ x ∈ l2, x.id ≠ tempId) :
    confirmMessage tempId newId createdAt (l1 ++ m :: l2)
      = l1 ++ { m with id := newId, timestamp := createdAt,
                       created_at := some createdAt } :: l2 ∧
    (∀ l : List ChatMessage,
      (confirmMessage tempId newId createdAt l).length = l.length) := by
  constructor
  · unfold confirmMessage
    rw [List.map_append, List.map_cons]
    have e1 : l1.map (fun x =>
        if x.id = tempId then
          { x with id := newId, timestamp := createdAt, created_at := some createdAt }
        else x) = l1 := by
      apply map_eq_self_of_mem
      intro x hx
      simp [h1 x hx]
    have e2 : l2.map (fun x =>
        if x.id = tempId then
          { x with id := newId, timestamp := createdAt, created_at := some createdAt }
        else x) = l2 := by
      apply map_eq_self_of_mem
      intro x hx
      simp [h2 x hx]
    rw [e1, e2, if_pos hm]
  · intro l
    simp [confirmMessage]

/-- Witness for C8: a pending message between two confirmed neighbours is
confirmed in place. -/
theorem confirmMessage_inplace_witness :
    confirmMessage "alice-5" "db42" 7
      [{ id := "m1", text := "a", sender := Sender.other, roomId := "r",
         timestamp := 1, senderId := "bob", created_at := some 1 },
       { id := "alice-5", text := "b", sender := Sender.me, roomId := "r",
         timestamp := 5, senderId := "alice", created_at := none },
       { id := "m2", text := "c", sender := Sender.other, roomId := "r",
         timestamp := 6, senderId := "bob", created_at := some 6 }]
      = [{ id := "m1", text := "a", sender := Sender.other, roomId := "r",
           timestamp := 1, senderId := "bob", created_at := some 1 },
         { id := "db42", text := "b", sender := Sender.me, roomId := "r",
           timestamp := 7, senderId := "alice", created_at := some 7 },
         { id := "m2", text := "c", sender := Sender.other, roomId := "r",
           timestamp := 6, senderId := "bob", created_at := some 6 }] :=
  (confirmMessage_inplace
    [{ id := "m1", text := "a", sender := Sender.other, roomId := "r",
       timestamp := 1, senderId := "bob", created_at := some 1 }]
    [{ id := "m2", text := "c", sender := Sender.other, roomId := "r",
       timestamp := 6, senderId := "bob", created_at := some 6 }]
    { id := "alice-5", text := "b", sender := Sender.me, roomId := "r",
      timestamp := 5, senderId := "alice", created_at := none }
    "alice-5" "db42" 7 rfl (by decide) (by decide)).1

/-! ### Persistence failure reverts the send (C1) -/

/-- C1: when the durable write fails — whether it resolves with an error or
throws — the optimistic message is filtered back out, so the displayed
sequence equals exactly what it was before the send, the composed text is
restored to the input field, and no `sendMessage` emit reaches the relay.
The freshness hypothesis states that the generated temporary id is not
already used in the displayed sequence. -/
theorem handleSend_persist_failure_reverts (hist : List ChatMessage)
    (msgText : String) (rid sel uid : String) (now : Nat) (res : PersistResult)
    (hmsg : jsTrim msgText ≠ "")
    (hrid : rid ≠ "") (hsel : sel ≠ "") (huid : uid ≠ "")
    (hres : res = PersistResult.perr ∨ res = PersistResult.pthrown)
    (hfresh : ∀ m ∈ hist, m.id ≠ uid ++ "-" ++ toString now) :
    handleSend { chatHistory := hist, message := msgText } true true true
      (some rid) (some sel) (some uid) now res
      = ({ chatHistory := hist, message := msgText }, []) := by
  have hguard : (true && true && true && !(jsTrim msgText = "" : Bool)
      && jsTruthyStr (some rid) && jsTruthyStr (some sel)
      && jsTruthyStr (some uid)) = true := by
    simp [jsTruthyStr, hmsg, hrid, hsel, huid]
  have hfilter :
      (hist ++ ([{ id := uid ++ "-" ++ toString now, text := msgText,
                   sender := Sender.me, roomId := rid, timestamp := now,
                   senderId := uid, created_at := none }] : List ChatMessage)).filter
        (fun m => !(m.id = uid ++ "-" ++ toString now : Bool)) = hist := by
    rw [List.filter_append]
    have h1 : hist.filter (fun m => !(m.id = uid ++ "-" ++ toString now : Bool))
        = hist := by
      apply List.filter_eq_self.mpr
      intro a ha
      simp [hfresh a ha]
    rw [h1]
    simp
  rcases hres with h | h <;> subst h <;>
    simp only [handleSend, hguard, if_true, Option.getD] <;>
    rw [hfilter]

/-- Witness for C1: a concrete failed send leaves the one-message history and
the composed text exactly as they were, with no emit. -/
theorem handleSend_persist_failure_reverts_witness :
    handleSend
      { chatHistory := [{ id := "m1", text := "a", sender := Sender.other,
                          roomId := "r1", timestamp := 1, senderId := "bob",
                          created_at := some 1 }],
        message := "hello" }
      true true true (some "r1") (some "bob") (some "alice") 5 PersistResult.perr
      = ({ chatHistory := [{ id := "m1", text := "a", sender := Sender.other,
                             roomId := "r1", timestamp := 1, senderId := "bob",
                             created_at := some 1 }],
           message := "hello" }, []) :=
  handleSend_persist_failure_reverts
    [{ id := "m1", text := "a", sender := Sender.other, roomId := "r1",
       timestamp := 1, senderId := "bob", created_at := some 1 }]
    "hello" "r1" "bob" "alice" 5 PersistResult.perr
    (by decide) (by decide) (by decide) (by decide) (Or.inl rfl) (by decide)

/-! ### Unread-boundary theorems (C7) -/

lemma findIdxOpt_eq_none_iff (p : α → Bool) (l : List α) :
    findIdxOpt p l = none ↔ ∀ x ∈ l, p x = false := by
  induction l with
  | nil => simp [findIdxOpt]
  | cons x xs ih =>
    by_cases h : p x
    · simp [findIdxOpt, h]
    · simp [findIdxOpt, h, ih]

lemma findIdxOpt_eq_some_of (p : α → Bool) (l : List α) (i : Nat) (hi : i < l.length)
    (hp : p (l.get ⟨i, hi⟩) = true)
    (hmin : ∀ j : Fin l.length, (j : Nat) < i → p (l.get j) = false) :
    findIdxOpt p l = some i := by
  induction l generalizing i with
  | nil => exact absurd hi (Nat.not_lt_zero i)
  | cons x xs ih =>
    cases i with
    | zero =>
      simp only [List.get] at hp
      simp [findIdxOpt, hp]
    | succ k =>
      have hx : p x = false := hmin ⟨0, Nat.succ_pos _⟩ (Nat.succ_pos k)
      have hk : k < xs.length := Nat.lt_of_succ_lt_succ hi
      have hpk : p (xs.get ⟨k, hk⟩) = true := by simpa [List.get] using hp
      have hmink : ∀ j : Fin xs.length, (j : Nat) < k → p (xs.get j) = false := by
        intro j hj
        have := hmin ⟨(j : Nat) + 1, Nat.succ_lt_succ j.isLt⟩ (Nat.succ_lt_succ hj)
        simpa [List.get] using this
      simp [findIdxOpt, hx, ih k hk hpk hmink]

/-- The qualification the spec describes for the unread boundary: the message
carries a durable `created_at` strictly after the last-viewed instant and was
not sent by the viewing user. -/
def unreadQualifies (selfId : String) (lastViewedTime : Nat) (m : ChatMessage) : Prop :=
  (∃ t, m.created_at = some t ∧ lastViewedTime < t) ∧ m.senderId ≠ selfId

lemma unread_pred_iff (selfId : String) (lastViewedTime : Nat) (m : ChatMessage)
    (hs : m.sender = Sender.me ↔ m.senderId = selfId)
    (hc : m.created_at.isSome) :
    ((decide (messageTime m > lastViewedTime) && !(m.sender = Sender.me : Bool)) = true)
      ↔ unreadQualifies selfId lastViewedTime m := by
  obtain ⟨t, ht⟩ := Option.isSome_iff_exists.mp hc
  have hmt : messageTime m = t := by simp [messageTime, ht]
  constructor
  · intro h
    simp only [Bool.and_eq_true, decide_eq_true_eq, Bool.not_eq_true',
      decide_eq_false_iff_not] at h
    exact ⟨⟨t, ht, hmt ▸ h.1⟩, fun hsend => h.2 (hs.mpr hsend)⟩
  · rintro ⟨⟨t2, ht2, hlt⟩, hsid⟩
    have ht2t : t2 = t := by
      rw [ht] at ht2
      exact (Option.some.inj ht2).symm
    simp only [Bool.and_eq_true, decide_eq_true_eq, Bool.not_eq_true',
      decide_eq_false_iff_not]
    exact ⟨hmt ▸ (ht2t ▸ hlt), fun hme => hsid (hs.mp hme)⟩

/-- C7: if `lastViewed` is `0` the unread boundary is `-1` ("none");
otherwise, over a sequence whose sender flags agree with the sender ids and
whose entries carry durable timestamps, the boundary is `-1` when no message
qualifies, and is the index of the first message with `created_at` strictly
after `lastViewed` and a sender id different from the viewing user; the
computation is a pure function of its inputs and mutates nothing. -/
theorem firstUnreadIndex_correct (selfId : String) (lastViewedTime : Nat)
    (history : List ChatMessage)
    (hSender : ∀ m ∈ history, (m.sender = Sender.me ↔ m.senderId = selfId))
    (hCreated : ∀ m ∈ history, m.created_at.isSome) :
    (lastViewedTime = 0 → firstUnreadIndex lastViewedTime history = -1) ∧
    (lastViewedTime ≠ 0 →
      ((∀ m ∈ history, ¬ unreadQualifies selfId lastViewedTime m) →
        firstUnreadIndex lastViewedTime history = -1) ∧
      (∀ i : Fin history.length,
        unreadQualifies selfId lastViewedTime (history.get i) →
        (∀ j : Fin history.length, (j : Nat) < (i : Nat) →
          ¬ unreadQualifies selfId lastViewedTime (history.get j)) →
        firstUnreadIndex lastViewedTime history = ((i : Nat) : Int))) := by
  constructor
  · intro h0
    simp [firstUnreadIndex, h0]
  · intro hne
    have hpos : lastViewedTime > 0 := Nat.pos_of_ne_zero hne
    constructor
    · intro hall
      have hnone : findIdxOpt (fun m =>
          decide (messageTime m > lastViewedTime) && !(m.sender = Sender.me : Bool))
          history = none := by
        rw [findIdxOpt_eq_none_iff]
        intro x hx
        rw [← Bool.not_eq_true]
        intro hpx
        exact hall x hx
          ((unread_pred_iff selfId lastViewedTime x (hSender x hx) (hCreated x hx)).mp hpx)
      simp [firstUnreadIndex, hpos, jsFindIndex, hnone]
    · intro i hqual hmin
      have hsome : findIdxOpt (fun m =>
          decide (messageTime m > lastViewedTime) && !(m.sender = Sender.me : Bool))
          history = some (i : Nat) := by
        apply findIdxOpt_eq_some_of _ _ _ i.isLt
        · exact (unread_pred_iff selfId lastViewedTime _
            (hSender _ (history.get_mem i i.isLt))
            (hCreated _ (history.get_mem i i.isLt))).mpr (by simpa using hqual)
        · intro j hj
          rw [← Bool.not_eq_true]
          intro hpj
          exact hmin j hj
            ((unread_pred_iff selfId lastViewedTime _
              (hSender _ (history.get_mem j j.isLt))
              (hCreated _ (history.get_mem j j.isLt))).mp hpj)
      simp [firstUnreadIndex, hpos, jsFindIndex, hsome]

/-- Witness for C7: a history holding one peer message written after the
last-viewed instant has its unread boundary at index 0. -/
theorem firstUnreadIndex_correct_witness :
    firstUnreadIndex 5
      [{ id := "m2", text := "b", sender := Sender.other, roomId := "r",
         timestamp := 10, senderId := "bob", created_at := some 10 }] = 0 :=
  ((firstUnreadIndex_correct "alice" 5
      [{ id := "m2", text := "b", sender := Sender.other, roomId := "r",
         timestamp := 10, senderId := "bob", created_at := some 10 }]
      (by decide) (by decide)).2 (by decide)).2
    ⟨0, by decide⟩ ⟨⟨10, rfl, by decide⟩, by decide⟩
    (fun j hj => absurd hj (Nat.not_lt_zero _))

end Wsbfinder
